import Mathlib

/-!
Shallow embedding of the ODTK remote-proxy client (`odtk.py`): the
reference-counting transport, the wire codec and the attribute proxy.

Python's mutable `Transport` object is modelled by explicit state passing:
every operation takes a `Transport` and returns the updated `Transport`
together with an `Except` value (either a raised Python exception or the
normal result).  The outcome of the HTTP exchange performed by an operation
is supplied by an oracle argument, since the server is outside the
repository; every request the client issues is appended to `reqLog`, so
theorems can speak about which wire requests an operation performs and in
what order.
-/

namespace Odtk

/-- Parsed JSON values, the output of `json.loads`.  Python decodes JSON
numbers to `int` or `float`; both are collapsed into one rational-valued
constructor because the client never computes with them, it only passes
them through. -/
inductive Json where
  | jnull : Json
  | jbool (b : Bool) : Json
  | jnum (q : ℚ) : Json
  | jstr (s : String) : Json
  | jarr (elems : List Json) : Json
  | jobj (fields : List (String × Json)) : Json

/-- Python exceptions that the modelled code can raise.  `clientException`
is `odtk.ClientException` with its `message` and `error_code` payloads
(kept as `Json` because Python stores arbitrary objects there);
`keyError` and `typeError` are the built-in exceptions raised by dict
subscription and by `str + non-str`; `connectionAbortedError` and
`otherError` classify failures of `connection.request`.  `notModelled`
marks inputs that violate the wire contract (a `ref` object whose `path`
is not a string); no modelled behaviour produces it on contract-conforming
input. -/
inductive PyError where
  | clientException (message : Json) (error_code : Json) : PyError
  | keyError (key : String) : PyError
  | typeError : PyError
  | connectionAbortedError : PyError
  | otherError : PyError
  | notModelled : PyError

/-- One HTTP request submission performed through `connection.request`. -/
structure Request where
  method : String
  url : String
  body : Option String
deriving DecidableEq, Repr

/-- The `Transport.temporary_references` dict: insertion-ordered key/value
pairs, with dict semantics given by `tlookup`, `tset`, `tdel` below. -/
abbrev RefTable := List (String × Int)

/-- Dict lookup: the value at the first (in a dict, the only) matching key. -/
def tlookup : RefTable → String → Option Int
  | [], _ => none
  | (k', v') :: rest, k => if k' = k then some v' else tlookup rest k

/-- Dict assignment `d[k] = v`: updates an existing key in place, appends a
new key at the end (Python dicts preserve insertion order). -/
def tset : RefTable → String → Int → RefTable
  | [], k, v => [(k, v)]
  | (k', v') :: rest, k, v =>
    if k' = k then (k', v) :: rest else (k', v') :: tset rest k v

/-- Dict deletion `del d[k]`: removes the entry with key `k` (call sites
check for presence first, matching Python's `KeyError` behaviour). -/
def tdel : RefTable → String → RefTable
  | [], _ => []
  | (k', v') :: rest, k => if k' = k then rest else (k', v') :: tdel rest k

/-- Dict key listing `list(d.keys())`, in insertion order. -/
def tkeys (tbl : RefTable) : List String := tbl.map Prod.fst

/-- Every Python dict has pairwise distinct keys; states reachable by the
modelled code always satisfy this. -/
def NodupKeys (tbl : RefTable) : Prop := (tbl.map Prod.fst).Nodup

instance : DecidablePred NodupKeys := fun tbl =>
  inferInstanceAs (Decidable (tbl.map Prod.fst).Nodup)

/-- State of a `Transport` object.  `baseUrl` is set once at construction;
`temporary_references` and `disposed` are its bookkeeping state; `reqLog`
records every request submitted through `connection.request`, `resetCount`
counts `_reset_connection` calls after construction, `connCloseCount` the
`connection.close()` calls performed by `close`. -/
structure Transport where
  baseUrl : String
  temporary_references : RefTable
  disposed : Bool
  reqLog : List Request
  resetCount : Nat
  connCloseCount : Nat
deriving DecidableEq, Repr

/-- The base URL `Transport.__init__` builds from the default host and port. -/
def defaultBaseUrl : String := "http://127.0.0.1:9393/v1.0/"

/-- A fresh transport, as left by `Transport.__init__` with default arguments. -/
def Transport.init : Transport :=
  { baseUrl := defaultBaseUrl, temporary_references := [], disposed := false,
    reqLog := [], resetCount := 0, connCloseCount := 0 }

/-- Model of `Transport._http_post` as used by the release protocol, whose response
body is void (§6) and discarded by the caller.  The submission is recorded
in `reqLog`; `hr` is the oracle outcome of the whole HTTP exchange. -/
def http_post_unit (t : Transport) (url : String) (body : String)
    (hr : Except PyError Unit) : Transport × Except PyError Unit :=
  ({ t with reqLog := t.reqLog ++ [⟨"POST", url, some body⟩] }, hr)

/-- The deletion loop of `Transport.release_refs`:
`for attribute_path in attribute_paths: del self.temporary_references[...]`.
A missing key raises `KeyError`; deletions already performed stand. -/
def delLoop : RefTable → List String → Except (RefTable × String) RefTable
  | tbl, [] => .ok tbl
  | tbl, p :: ps =>
    if (tlookup tbl p).isSome then delLoop (tdel tbl p) ps else .error (tbl, p)

/-- The release request body built by `Transport.release_refs`. -/
def renderRefs (paths : List String) : String :=
  "[" ++ String.intercalate ", " (paths.map (fun a => "\"" ++ a ++ "\"")) ++ "]"

/-- Model of `Transport.release_refs`: when not disposed and given a non-empty list,
deletes every path from the table, then posts one batched release request. -/
def release_refs (t : Transport) (attribute_paths : List String)
    (hr : Except PyError Unit) : Transport × Except PyError Unit :=
  if t.disposed then (t, .ok ())
  else if attribute_paths.length = 0 then (t, .ok ())
  else
    match delLoop t.temporary_references attribute_paths with
    | .error (tbl', missing) =>
      ({ t with temporary_references := tbl' }, .error (.keyError missing))
    | .ok tbl' =>
      let t1 := { t with temporary_references := tbl' }
      http_post_unit t1 (t1.baseUrl ++ "workspace/references/release")
        (renderRefs attribute_paths) hr

/-- Model of `Transport._update_ref_count`. -/
def update_ref_count (t : Transport) (ref : String) (increment : Bool)
    (hr : Except PyError Unit) : Transport × Except PyError Unit :=
  if t.disposed then (t, .ok ())
  else
    match tlookup t.temporary_references ref with
    | none =>
      if increment then
        ({ t with temporary_references := tset t.temporary_references ref 1 },
         .ok ())
      else
        (t, .error (.clientException
          (.jstr ("Cannot decrement count for " ++ ref ++
            " because it was not found in the reference map."))
          (.jstr "InvalidOperation")))
    | some n =>
      let n' := n + (if increment then 1 else -1)
      let t1 := { t with temporary_references := tset t.temporary_references ref n' }
      if n' = 0 then release_refs t1 [ref] hr else (t1, .ok ())

/-- Model of `Transport.increment_ref_count`. -/
def increment_ref_count (t : Transport) (ref : String)
    (hr : Except PyError Unit) : Transport × Except PyError Unit :=
  update_ref_count t ref true hr

/-- Model of `Transport.decrement_ref_count`. -/
def decrement_ref_count (t : Transport) (ref : String)
    (hr : Except PyError Unit) : Transport × Except PyError Unit :=
  update_ref_count t ref false hr

/-- Model of `Transport.close`: when not yet disposed, releases every tracked path
in one batch, closes the connection and sets the disposed flag.  An
exception from the release request propagates before the flag is set. -/
def Transport.close (t : Transport) (hr : Except PyError Unit) :
    Transport × Except PyError Unit :=
  if t.disposed then (t, .ok ())
  else
    match release_refs t (tkeys t.temporary_references) hr with
    | (t', .error e) => (t', .error e)
    | (t', .ok _) =>
      ({ t' with connCloseCount := t'.connCloseCount + 1, disposed := true },
       .ok ())

/-- The reference count held in the table for a path, 0 when absent (an
entry is never stored with count 0: reaching 0 removes it). -/
def refCount (t : Transport) (path : String) : Int :=
  (tlookup t.temporary_references path).getD 0

/-- Dict lookup in a parsed JSON object. -/
def jget : List (String × Json) → String → Option Json
  | [], _ => none
  | (k', v') :: rest, k => if k' = k then some v' else jget rest k

/-- Python `j == s` for a string literal `s`: true exactly when `j` is that
string (comparison with any other JSON value is simply unequal). -/
def isStr (j : Json) (s : String) : Bool :=
  match j with
  | .jstr x => x = s
  | _ => false

/-- Python `str.lower()` on the ASCII identifiers this client handles:
lowercases each character. -/
def strLower (s : String) : String := ⟨s.data.map Char.toLower⟩

/-- A raw HTTP response body: either empty, or nonempty text `raw` that
`json.loads` parses to `parsed` (bodies that are not valid JSON make
`json.loads` itself raise and are outside every claim). -/
inductive RespBody where
  | empty : RespBody
  | json (raw : String) (parsed : Json) : RespBody

/-- Model of `odtk.AttrRef`; `hasTransport` records whether a transport object (as
opposed to `None`) was supplied, since the instance only participates in
reference counting when it has one. -/
structure AttrRef where
  path : String
  temporary : Bool
  hasTransport : Bool
deriving DecidableEq, Repr

/-- Client-side decoded values: the scalars Python returns from `_decode`
plus a decoded reference. -/
inductive Value where
  | vbool (b : Bool) : Value
  | vnum (q : ℚ) : Value
  | vstr (s : String) : Value
  | vref (r : AttrRef) : Value
deriving DecidableEq, Repr

/-- Model of `AttrRef.__init__`: stores the fields and, when a transport is supplied
and `temporary` holds, increments that transport's count for `path`. -/
def AttrRef.init (t : Transport) (path : String)
    (temporary hasTransport : Bool) (hr : Except PyError Unit) :
    Transport × Except PyError AttrRef :=
  if hasTransport && temporary then
    match increment_ref_count t path hr with
    | (t', .ok _) => (t', .ok ⟨path, temporary, hasTransport⟩)
    | (t', .error e) => (t', .error e)
  else (t, .ok ⟨path, temporary, hasTransport⟩)

/-- Model of `AttrRef.__del__`: decrements the count when the instance has a
transport and is temporary. -/
def AttrRef.del (r : AttrRef) (t : Transport) (hr : Except PyError Unit) :
    Transport × Except PyError Unit :=
  if r.hasTransport && r.temporary then decrement_ref_count t r.path hr
  else (t, .ok ())

/-- Model of `Transport._decode`: empty body to empty string; bare scalar to itself;
`type: "ref"` to a temporary `AttrRef` (whose construction increments the
reference count); `type: "error"` raises `ClientException(message, code)`;
an object with any other `type` raises a SerializationError
`ClientException`.  A null or array body hits `spec['type']` and raises
`TypeError`; an object without a `type` key raises `KeyError`. -/
def decode (t : Transport) (body : RespBody) (hr : Except PyError Unit) :
    Transport × Except PyError Value :=
  match body with
  | .empty => (t, .ok (.vstr ""))
  | .json raw j =>
    match j with
    | .jbool b => (t, .ok (.vbool b))
    | .jnum q => (t, .ok (.vnum q))
    | .jstr s => (t, .ok (.vstr s))
    | .jnull => (t, .error .typeError)
    | .jarr _ => (t, .error .typeError)
    | .jobj fields =>
      match jget fields "type" with
      | none => (t, .error (.keyError "type"))
      | some data_type =>
        if isStr data_type "ref" then
          match jget fields "path" with
          | none => (t, .error (.keyError "path"))
          | some (.jstr p) =>
            match AttrRef.init t p true true hr with
            | (t', .ok r) => (t', .ok (.vref r))
            | (t', .error e) => (t', .error e)
          | some _ => (t, .error .notModelled)
        else if isStr data_type "error" then
          match jget fields "code" with
          | none => (t, .error (.keyError "code"))
          | some c =>
            match jget fields "message" with
            | none => (t, .error (.keyError "message"))
            | some m => (t, .error (.clientException m c))
        else
          (t, .error (.clientException
            (.jstr ("Unable to deserialize response '" ++ raw ++ "'."))
            (.jstr "SerializationError")))

/-- The `status_code` argument of `ClientException.create_from_http_status`
as the repository can supply it: the int `response.status` from the HTTP
library, or a str. -/
inductive StatusArg where
  | int (n : Int) : StatusArg
  | str (s : String) : StatusArg
deriving DecidableEq, Repr

/-- Python `str + x`: concatenation when `x` is a str, `TypeError` otherwise. -/
def pyStrAdd (a : String) (b : StatusArg) : Except PyError String :=
  match b with
  | .str s => .ok (a ++ s)
  | .int _ => .error .typeError

/-- Model of `ClientException.create_from_http_status`: builds
`ClientException(message, "HTTP" + status_code)`; the concatenation itself
can raise. -/
def create_from_http_status (status_code : StatusArg) (message : String) :
    Except PyError PyError :=
  match pyStrAdd "HTTP" status_code with
  | .ok code => .ok (.clientException (.jstr message) (.jstr code))
  | .error e => .error e

/-- An HTTP response as seen by `Transport._decode_http_response`:
`response.status` (an int), `response.reason` and the read body. -/
structure HttpResponse where
  status : Int
  reason : String
  body : RespBody

/-- Model of `Transport._decode_http_response`: decodes the body on status 200,
otherwise raises whatever `create_from_http_status(response.status, ...)`
produces when applied to the int status. -/
def decode_http_response (t : Transport) (r : HttpResponse)
    (hr : Except PyError Unit) : Transport × Except PyError Value :=
  if r.status = 200 then decode t r.body hr
  else
    match create_from_http_status (.int r.status)
        ("Failed to execute request: " ++ r.reason) with
    | .ok e => (t, .error e)
    | .error e => (t, .error e)

/-- Model of `Transport._http_get` in the normal case where the submission succeeds
on the first attempt; `resp` is the oracle HTTP response. -/
def http_get (t : Transport) (url : String) (resp : HttpResponse)
    (hr : Except PyError Unit) : Transport × Except PyError Value :=
  let t1 := { t with reqLog := t.reqLog ++ [⟨"GET", url, none⟩] }
  decode_http_response t1 resp hr

/-- Model of `Transport.get`. -/
def Transport.get (t : Transport) (attribute_path : String)
    (resp : HttpResponse) (hr : Except PyError Unit) :
    Transport × Except PyError Value :=
  http_get t (t.baseUrl ++ attribute_path) resp hr

/-- Outcome of one `connection.request` submission. -/
inductive ReqAttempt where
  | success : ReqAttempt
  | raise (e : PyError) : ReqAttempt

/-- Model of `Transport._send_http_request` with the retry logic: a first submission
raising `ConnectionAbortedError` resets the connection and submits the same
request once more; any other exception of the first submission, and any
exception of the second, propagates.  `first` and `second` are the oracle
outcomes of the two possible submissions. -/
def send_http_request (t : Transport) (method url : String)
    (body : Option String) (first second : ReqAttempt) (resp : HttpResponse)
    (hr : Except PyError Unit) : Transport × Except PyError Value :=
  let t1 := { t with reqLog := t.reqLog ++ [⟨method, url, body⟩] }
  match first with
  | .success => decode_http_response t1 resp hr
  | .raise .connectionAbortedError =>
    let t2 := { t1 with resetCount := t1.resetCount + 1,
                        reqLog := t1.reqLog ++ [⟨method, url, body⟩] }
    match second with
    | .success => decode_http_response t2 resp hr
    | .raise e => (t2, .error e)
  | .raise e => (t1, .error e)

/-- Model of `odtk.AttrProxy`: the transport is shared and therefore passed
separately rather than stored. -/
structure AttrProxy where
  path : String
  temporary : Bool
deriving DecidableEq, Repr

/-- Model of `AttrProxy.__init__`: sets the fields through `object.__setattr__` and
increments the reference count when `temporary` holds. -/
def AttrProxy.init (t : Transport) (path : String) (temporary : Bool)
    (hr : Except PyError Unit) : Transport × Except PyError AttrProxy :=
  if temporary then
    match increment_ref_count t path hr with
    | (t', .ok _) => (t', .ok ⟨path, temporary⟩)
    | (t', .error e) => (t', .error e)
  else (t, .ok ⟨path, temporary⟩)

/-- Model of `AttrProxy.__del__`. -/
def AttrProxy.del (p : AttrProxy) (t : Transport) (hr : Except PyError Unit) :
    Transport × Except PyError Unit :=
  if p.temporary then decrement_ref_count t p.path hr else (t, .ok ())

/-- What an `AttrProxy` member access can produce: a plain decoded value or
a (new) proxy object. -/
inductive PyResult where
  | val (v : Value) : PyResult
  | proxy (p : AttrProxy) : PyResult
deriving DecidableEq, Repr

/-- Model of `AttrProxy._value_from_transport_response`: an `AttrRef` is rewrapped
into an `AttrProxy` with the same path and temporary flag (whose
construction increments the count again); everything else passes through. -/
def value_from_transport_response (t : Transport) (v : Value)
    (hr : Except PyError Unit) : Transport × Except PyError PyResult :=
  match v with
  | .vref r =>
    match AttrProxy.init t r.path r.temporary hr with
    | (t', .ok p) => (t', .ok (.proxy p))
    | (t', .error e) => (t', .error e)
  | v => (t, .ok (.val v))

/-- Model of `AttrProxy.__getattr__`: a name that equals `"count"` case-insensitively
performs `Transport.get` on `path + "." + name` and returns the decoded
value; any other name builds a child proxy with `temporary=False` and
performs no request. -/
def AttrProxy.getattr (p : AttrProxy) (t : Transport) (name : String)
    (resp : HttpResponse) (hr : Except PyError Unit) :
    Transport × Except PyError PyResult :=
  if strLower name = "count" then
    match Transport.get t (p.path ++ "." ++ name) resp hr with
    | (t', .error e) => (t', .error e)
    | (t', .ok v) => value_from_transport_response t' v hr
  else
    (t, .ok (.proxy ⟨p.path ++ "." ++ name, false⟩))

/-- Whether a decode outcome is the SerializationError `ClientException`
that the spec's catch-all clause announces. -/
def isSerializationError : Except PyError Value → Bool
  | .error (.clientException _ (.jstr "SerializationError")) => true
  | _ => false

theorem tlookup_tset_self (tbl : RefTable) (k : String) (v : Int) :
    tlookup (tset tbl k v) k = some v := by
  induction tbl with
  | nil => simp [tset, tlookup]
  | cons hd tl ih =>
    obtain ⟨k', v'⟩ := hd
    by_cases h : k' = k <;> simp [tset, tlookup, h, ih]

theorem tlookup_tset_ne (tbl : RefTable) (k k' : String) (v : Int)
    (h : k' ≠ k) : tlookup (tset tbl k v) k' = tlookup tbl k' := by
  induction tbl with
  | nil => simp [tset, tlookup, Ne.symm h]
  | cons hd tl ih =>
    obtain ⟨k₀, v₀⟩ := hd
    by_cases h₀ : k₀ = k
    · subst h₀
      simp [tset, tlookup, Ne.symm h]
    · simp only [tset, if_neg h₀, tlookup]
      by_cases h₁ : k₀ = k' <;> simp [h₁, ih]

theorem tlookup_tdel_ne (tbl : RefTable) (k k' : String) (h : k' ≠ k) :
    tlookup (tdel tbl k) k' = tlookup tbl k' := by
  induction tbl with
  | nil => simp [tdel]
  | cons hd tl ih =>
    obtain ⟨k₀, v₀⟩ := hd
    by_cases h₀ : k₀ = k
    · subst h₀
      simp [tdel, tlookup, Ne.symm h]
    · simp only [tdel, if_neg h₀, tlookup]
      by_cases h₁ : k₀ = k' <;> simp [h₁, ih]

theorem tlookup_eq_none_of_not_mem_keys (tbl : RefTable) (k : String)
    (h : k ∉ tbl.map Prod.fst) : tlookup tbl k = none := by
  induction tbl with
  | nil => rfl
  | cons hd tl ih =>
    obtain ⟨k₀, v₀⟩ := hd
    simp only [List.map_cons, List.mem_cons, not_or] at h
    simp [tlookup, Ne.symm h.1, ih h.2]

theorem tlookup_tdel_self (tbl : RefTable) (k : String)
    (h : NodupKeys tbl) : tlookup (tdel tbl k) k = none := by
  induction tbl with
  | nil => rfl
  | cons hd tl ih =>
    obtain ⟨k₀, v₀⟩ := hd
    simp only [NodupKeys, List.map_cons, List.nodup_cons] at h
    by_cases h₀ : k₀ = k
    · subst h₀
      simp [tdel, tlookup_eq_none_of_not_mem_keys tl k₀ h.1]
    · simp [tdel, h₀, tlookup, ih h.2]

theorem keys_tdel_sublist (tbl : RefTable) (k : String) :
    ((tdel tbl k).map Prod.fst).Sublist (tbl.map Prod.fst) := by
  induction tbl with
  | nil => simp [tdel]
  | cons hd tl ih =>
    obtain ⟨k₀, v₀⟩ := hd
    by_cases h₀ : k₀ = k
    · simp [tdel, h₀, List.sublist_cons_self k₀ (tl.map Prod.fst)]
    · simpa [tdel, h₀] using ih.cons₂ k₀

theorem nodupKeys_tdel (tbl : RefTable) (k : String) (h : NodupKeys tbl) :
    NodupKeys (tdel tbl k) :=
  (keys_tdel_sublist tbl k).nodup h

theorem keys_tset_of_present (tbl : RefTable) (k : String) (v : Int)
    (h : (tlookup tbl k).isSome) :
    (tset tbl k v).map Prod.fst = tbl.map Prod.fst := by
  induction tbl with
  | nil => simp [tlookup] at h
  | cons hd tl ih =>
    obtain ⟨k₀, v₀⟩ := hd
    by_cases h₀ : k₀ = k
    · simp [tset, h₀]
    · simp only [tlookup, if_neg h₀] at h
      simp [tset, h₀, ih h]

theorem keys_tset_of_absent (tbl : RefTable) (k : String) (v : Int)
    (h : tlookup tbl k = none) :
    (tset tbl k v).map Prod.fst = tbl.map Prod.fst ++ [k] := by
  induction tbl with
  | nil => simp [tset]
  | cons hd tl ih =>
    obtain ⟨k₀, v₀⟩ := hd
    by_cases h₀ : k₀ = k
    · simp [tlookup, h₀] at h
    · simp only [tlookup, if_neg h₀] at h
      simp [tset, h₀, ih h]

theorem not_mem_keys_of_tlookup_eq_none (tbl : RefTable) (k : String)
    (h : tlookup tbl k = none) : k ∉ tbl.map Prod.fst := by
  induction tbl with
  | nil => simp
  | cons hd tl ih =>
    obtain ⟨k₀, v₀⟩ := hd
    by_cases h₀ : k₀ = k
    · simp [tlookup, h₀] at h
    · simp only [tlookup, if_neg h₀] at h
      simp [Ne.symm h₀, ih h]

theorem nodupKeys_tset (tbl : RefTable) (k : String) (v : Int)
    (h : NodupKeys tbl) : NodupKeys (tset tbl k v) := by
  rcases hk : tlookup tbl k with _ | w
  · unfold NodupKeys
    rw [keys_tset_of_absent tbl k v hk]
    refine List.Nodup.append h (List.nodup_singleton k) ?_
    intro a ha hb
    rcases List.mem_singleton.mp hb with rfl
    exact not_mem_keys_of_tlookup_eq_none tbl a hk ha
  · unfold NodupKeys
    rw [keys_tset_of_present tbl k v (by simp [hk])]
    exact h

theorem delLoop_keys (tbl : RefTable) (h : NodupKeys tbl) :
    delLoop tbl (tkeys tbl) = .ok [] := by
  induction tbl with
  | nil => rfl
  | cons hd tl ih =>
    obtain ⟨k₀, v₀⟩ := hd
    simp only [NodupKeys, List.map_cons, List.nodup_cons] at h
    have hdel : tdel ((k₀, v₀) :: tl) k₀ = tl := by simp [tdel]
    simp [tkeys, delLoop, tlookup, hdel]
    simpa [tkeys] using ih h.2

theorem delLoop_spec (paths : List String) (tbl : RefTable)
    (hN : NodupKeys tbl) (hnd : paths.Nodup)
    (hp : ∀ p ∈ paths, (tlookup tbl p).isSome) :
    ∃ tbl', delLoop tbl paths = .ok tbl' ∧ NodupKeys tbl' ∧
      (∀ p ∈ paths, tlookup tbl' p = none) ∧
      (∀ q, q ∉ paths → tlookup tbl' q = tlookup tbl q) := by
  induction paths generalizing tbl with
  | nil => exact ⟨tbl, rfl, hN, by simp, fun q _ => rfl⟩
  | cons p ps ih =>
    have hpmem : (tlookup tbl p).isSome := hp p (List.mem_cons_self p ps)
    have hnd' : ps.Nodup := (List.nodup_cons.mp hnd).2
    have hpne : p ∉ ps := (List.nodup_cons.mp hnd).1
    have hN' : NodupKeys (tdel tbl p) := nodupKeys_tdel tbl p hN
    have hp' : ∀ q ∈ ps, (tlookup (tdel tbl p) q).isSome := by
      intro q hq
      have hqp : q ≠ p := fun hx => hpne (hx ▸ hq)
      rw [tlookup_tdel_ne tbl p q hqp]
      exact hp q (List.mem_cons_of_mem p hq)
    obtain ⟨tbl', h1, h2, h3, h4⟩ := ih (tdel tbl p) hN' hnd' hp'
    refine ⟨tbl', by simp [delLoop, hpmem, h1], h2, ?_, ?_⟩
    · intro q hq
      rcases List.mem_cons.mp hq with rfl | hq'
      · rw [h4 q hpne, tlookup_tdel_self tbl q hN]
      · exact h3 q hq'
    · intro q hq
      simp only [List.mem_cons, not_or] at hq
      rw [h4 q hq.2, tlookup_tdel_ne tbl p q hq.1]

theorem increment_ref_count_of_nonneg (t : Transport) (p : String)
    (hr : Except PyError Unit) (hd : t.disposed = false)
    (hnn : 0 ≤ refCount t p) :
    increment_ref_count t p hr =
      ({ t with
          temporary_references := tset t.temporary_references p (refCount t p + 1) },
       .ok ()) := by
  rcases hk : tlookup t.temporary_references p with _ | n
  · simp [increment_ref_count, update_ref_count, hd, hk, refCount]
  · have hn : 0 ≤ n := by simpa [refCount, hk] using hnn
    have hne : ¬ n + 1 = 0 := by omega
    simp [increment_ref_count, update_ref_count, hd, hk, refCount, hne]

theorem decrement_refCount_of_present (t : Transport) (p : String)
    (hr : Except PyError Unit) (hd : t.disposed = false)
    (hN : NodupKeys t.temporary_references)
    (hp : (tlookup t.temporary_references p).isSome) :
    refCount (decrement_ref_count t p hr).1 p = refCount t p - 1 := by
  rcases hk : tlookup t.temporary_references p with _ | n
  · simp [hk] at hp
  · by_cases hz : n + -1 = 0
    · have hset : (tlookup (tset t.temporary_references p (n + -1)) p).isSome := by
        simp [tlookup_tset_self]
      simp only [decrement_ref_count, update_ref_count, hd, Bool.false_eq_true,
        if_false, hk, if_neg, hz, if_pos, release_refs]
      simp [release_refs, hd, delLoop, hset, http_post_unit, refCount,
        tlookup_tdel_self _ p (nodupKeys_tset _ p _ hN),
        tlookup_tset_self, hk, hz]
      omega
    · simp [decrement_ref_count, update_ref_count, hd, hk, hz, refCount,
        tlookup_tset_self]
      omega

/-- C6: after the transport has been disposed by shutdown, every
`increment_ref_count` and `decrement_ref_count` call is a no-op: it raises
no error and returns the state — reference table included — unchanged. -/
theorem update_ref_count_noop_after_dispose (t : Transport) (p : String)
    (hr : Except PyError Unit) (h : t.disposed = true) :
    increment_ref_count t p hr = (t, .ok ()) ∧
    decrement_ref_count t p hr = (t, .ok ()) := by
  constructor <;>
    simp [increment_ref_count, decrement_ref_count, update_ref_count, h]

theorem update_ref_count_noop_after_dispose_witness :
    increment_ref_count { Transport.init with disposed := true } "a" (.ok ()) =
      ({ Transport.init with disposed := true }, .ok ()) ∧
    decrement_ref_count { Transport.init with disposed := true } "a" (.ok ()) =
      ({ Transport.init with disposed := true }, .ok ()) :=
  update_ref_count_noop_after_dispose { Transport.init with disposed := true }
    "a" (.ok ()) rfl

/-- C3: decrementing a path absent from the reference table of a
non-disposed transport raises a `ClientException` with the
`InvalidOperation` code and leaves the whole state, table included,
unchanged. -/
theorem decrement_absent_raises_invalid_operation (t : Transport) (p : String)
    (hr : Except PyError Unit) (hd : t.disposed = false)
    (habs : tlookup t.temporary_references p = none) :
    decrement_ref_count t p hr =
      (t, .error (.clientException
        (.jstr ("Cannot decrement count for " ++ p ++
          " because it was not found in the reference map."))
        (.jstr "InvalidOperation"))) := by
  simp [decrement_ref_count, update_ref_count, hd, habs]

theorem decrement_absent_raises_invalid_operation_witness :
    decrement_ref_count Transport.init "a" (.ok ()) =
      (Transport.init, .error (.clientException
        (.jstr ("Cannot decrement count for " ++ "a" ++
          " because it was not found in the reference map."))
        (.jstr "InvalidOperation"))) :=
  decrement_absent_raises_invalid_operation Transport.init "a" (.ok ()) rfl rfl

/-- C2: on a non-disposed transport, incrementing a path absent from the
table inserts it with count 1; a decrement that brings a path's count from
1 to 0 removes that path's entry (leaving every other entry untouched) and
immediately posts one release request naming exactly that single path. -/
theorem refcount_insert_and_release (t : Transport) (p : String)
    (hd : t.disposed = false) (hN : NodupKeys t.temporary_references) :
    (tlookup t.temporary_references p = none →
      increment_ref_count t p (.ok ()) =
        ({ t with temporary_references := tset t.temporary_references p 1 },
         .ok ())) ∧
    (tlookup t.temporary_references p = some 1 →
      (decrement_ref_count t p (.ok ())).2 = .ok () ∧
      tlookup (decrement_ref_count t p (.ok ())).1.temporary_references p =
        none ∧
      (∀ q, q ≠ p →
        tlookup (decrement_ref_count t p (.ok ())).1.temporary_references q =
          tlookup t.temporary_references q) ∧
      (decrement_ref_count t p (.ok ())).1.reqLog = t.reqLog ++
        [⟨"POST", t.baseUrl ++ "workspace/references/release",
          some (renderRefs [p])⟩]) := by
  constructor
  · intro habs
    simp [increment_ref_count, update_ref_count, hd, habs]
  · intro hone
    have hset : (tlookup (tset t.temporary_references p 0) p).isSome := by
      simp [tlookup_tset_self]
    have hstep : decrement_ref_count t p (.ok ()) =
        ({ t with
            temporary_references := tdel (tset t.temporary_references p 0) p,
            reqLog := t.reqLog ++
              [⟨"POST", t.baseUrl ++ "workspace/references/release",
                some (renderRefs [p])⟩] }, .ok ()) := by
      simp [decrement_ref_count, update_ref_count, hd, hone, release_refs,
        delLoop, hset, http_post_unit]
    refine ⟨by simp [hstep], ?_, ?_, by simp [hstep]⟩
    · rw [hstep]
      exact tlookup_tdel_self _ p (nodupKeys_tset _ p _ hN)
    · intro q hq
      rw [hstep]
      simp only
      rw [tlookup_tdel_ne _ p q hq, tlookup_tset_ne _ p q _ hq]

theorem refcount_insert_and_release_witness :
    (tlookup [("b", 2)] "a" = none ∧
      increment_ref_count { Transport.init with temporary_references := [("b", 2)] }
          "a" (.ok ()) =
        ({ Transport.init with temporary_references := [("b", 2), ("a", 1)] },
         .ok ())) ∧
    (tlookup [("a", 1)] "a" = some 1 ∧
      (decrement_ref_count { Transport.init with temporary_references := [("a", 1)] }
          "a" (.ok ())).2 = .ok () ∧
      tlookup (decrement_ref_count
          { Transport.init with temporary_references := [("a", 1)] }
          "a" (.ok ())).1.temporary_references "a" = none ∧
      (decrement_ref_count { Transport.init with temporary_references := [("a", 1)] }
          "a" (.ok ())).1.reqLog =
        [⟨"POST", defaultBaseUrl ++ "workspace/references/release",
          some (renderRefs ["a"])⟩]) := by
  have h1 := (refcount_insert_and_release
    { Transport.init with temporary_references := [("b", 2)] } "a" rfl
    (by decide)).1 rfl
  have h2 := (refcount_insert_and_release
    { Transport.init with temporary_references := [("a", 1)] } "a" rfl
    (by decide)).2 rfl
  exact ⟨⟨rfl, by simpa [tset, Transport.init] using h1⟩,
    ⟨rfl, h2.1, h2.2.1, by simpa [Transport.init] using h2.2.2.2⟩⟩

/-- C8: contrary to the claim, a non-200 HTTP status does not produce a
`ClientException` with a status-derived code: `create_from_http_status`
computes `"HTTP" + status_code` on the int `response.status`, and Python's
str + int concatenation raises `TypeError`, which is what the caller sees.
Given the str the concatenation needs, the intended exception would have
been produced. -/
theorem non200_raises_typeerror (t : Transport) (hr : Except PyError Unit)
    (reason : String) (body : RespBody) (status : Int) (h : status ≠ 200) :
    decode_http_response t ⟨status, reason, body⟩ hr =
      (t, .error .typeError) ∧
    create_from_http_status (.int status)
      ("Failed to execute request: " ++ reason) = .error .typeError ∧
    create_from_http_status (.str "404")
      ("Failed to execute request: " ++ reason) =
      .ok (.clientException (.jstr ("Failed to execute request: " ++ reason))
        (.jstr "HTTP404")) := by
  refine ⟨?_, rfl, rfl⟩
  simp [decode_http_response, create_from_http_status, pyStrAdd, h]

theorem non200_raises_typeerror_witness :
    decode_http_response Transport.init ⟨404, "Not Found", .empty⟩ (.ok ()) =
      (Transport.init, .error .typeError) ∧
    create_from_http_status (.int 404)
      ("Failed to execute request: " ++ "Not Found") = .error .typeError ∧
    create_from_http_status (.str "404")
      ("Failed to execute request: " ++ "Not Found") =
      .ok (.clientException
        (.jstr ("Failed to execute request: " ++ "Not Found"))
        (.jstr "HTTP404")) :=
  non200_raises_typeerror Transport.init (.ok ()) "Not Found" .empty 404
    (by decide)

/-- C9: a first request submission failing with `ConnectionAbortedError`
triggers exactly one connection reset and one resubmission of the identical
request, after which processing continues normally on success while a
failure of the retry propagates with no third attempt; a first failure of
any other class propagates at once, with no reset and no resubmission. -/
theorem send_request_retry_policy (t : Transport) (method url : String)
    (body : Option String) (resp : HttpResponse) (hr : Except PyError Unit)
    (e : PyError) (second : ReqAttempt) :
    (send_http_request t method url body (.raise .connectionAbortedError)
        (.raise e) resp hr =
      ({ t with resetCount := t.resetCount + 1,
                reqLog := t.reqLog ++ [⟨method, url, body⟩, ⟨method, url, body⟩] },
       .error e)) ∧
    (send_http_request t method url body (.raise .connectionAbortedError)
        .success resp hr =
      decode_http_response
        { t with resetCount := t.resetCount + 1,
                 reqLog := t.reqLog ++ [⟨method, url, body⟩, ⟨method, url, body⟩] }
        resp hr) ∧
    (e ≠ .connectionAbortedError →
      send_http_request t method url body (.raise e) second resp hr =
        ({ t with reqLog := t.reqLog ++ [⟨method, url, body⟩] }, .error e)) ∧
    (send_http_request t method url body .success second resp hr =
      decode_http_response { t with reqLog := t.reqLog ++ [⟨method, url, body⟩] }
        resp hr) := by
  refine ⟨by simp [send_http_request], by simp [send_http_request], ?_,
    by simp [send_http_request]⟩
  intro hne
  cases e <;> first
    | exact absurd rfl hne
    | simp [send_http_request]

theorem send_request_retry_policy_witness :
    (send_http_request Transport.init "GET" "u" none
        (.raise .connectionAbortedError) (.raise .otherError)
        ⟨200, "OK", .empty⟩ (.ok ()) =
      ({ Transport.init with
          resetCount := 1,
          reqLog := [⟨"GET", "u", none⟩, ⟨"GET", "u", none⟩] },
       .error .otherError)) ∧
    (send_http_request Transport.init "GET" "u" none (.raise .otherError)
        .success ⟨200, "OK", .empty⟩ (.ok ()) =
      ({ Transport.init with reqLog := [⟨"GET", "u", none⟩] },
       .error .otherError)) := by
  have h := send_request_retry_policy Transport.init "GET" "u" none
    ⟨200, "OK", .empty⟩ (.ok ()) .otherError .success
  exact ⟨by simpa [Transport.init] using h.1, by
    simpa [Transport.init] using h.2.2.1 (fun hx => PyError.noConfusion hx)⟩

/-- C1: on a non-disposed transport whose count for the path is not
negative (reachable tables only store counts of at least 1), constructing
a temporary `AttrProxy`, or an `AttrRef` that carries a transport, raises
nothing, issues no request and raises the path's table count by exactly
one, leaving it at least 1 for the proxy's lifetime; construction with
`temporary=false` leaves the transport completely untouched; destruction
of a temporary proxy whose path is still tracked lowers the count by
exactly one, and destruction of a non-temporary one does nothing. -/
theorem proxy_refcount_lifecycle (t : Transport) (p : String)
    (hr : Except PyError Unit) (hd : t.disposed = false)
    (hN : NodupKeys t.temporary_references) (hnn : 0 ≤ refCount t p) :
    AttrProxy.init t p true hr =
      ({ t with
          temporary_references := tset t.temporary_references p (refCount t p + 1) },
       .ok ⟨p, true⟩) ∧
    refCount (AttrProxy.init t p true hr).1 p = refCount t p + 1 ∧
    1 ≤ refCount (AttrProxy.init t p true hr).1 p ∧
    (AttrProxy.init t p true hr).1.reqLog = t.reqLog ∧
    AttrRef.init t p true true hr =
      ((AttrProxy.init t p true hr).1, .ok ⟨p, true, true⟩) ∧
    AttrProxy.init t p false hr = (t, .ok ⟨p, false⟩) ∧
    AttrRef.init t p false true hr = (t, .ok ⟨p, false, true⟩) ∧
    ((tlookup t.temporary_references p).isSome →
      refCount (AttrProxy.del ⟨p, true⟩ t hr).1 p = refCount t p - 1 ∧
      AttrRef.del ⟨p, true, true⟩ t hr = AttrProxy.del ⟨p, true⟩ t hr) ∧
    AttrProxy.del ⟨p, false⟩ t hr = (t, .ok ()) ∧
    AttrRef.del ⟨p, false, true⟩ t hr = (t, .ok ()) := by
  have hinc := increment_ref_count_of_nonneg t p hr hd hnn
  have h1 : AttrProxy.init t p true hr =
      ({ t with
          temporary_references := tset t.temporary_references p (refCount t p + 1) },
       .ok ⟨p, true⟩) := by
    simp [AttrProxy.init, hinc]
  have h2 : refCount (AttrProxy.init t p true hr).1 p = refCount t p + 1 := by
    simp [h1, refCount, tlookup_tset_self]
  refine ⟨h1, h2, by omega, by simp [h1], ?_, by simp [AttrProxy.init],
    by simp [AttrRef.init], ?_, by simp [AttrProxy.del], by simp [AttrRef.del]⟩
  · simp [AttrRef.init, hinc, h1]
  · intro hp
    exact ⟨by simpa [AttrProxy.del] using
        decrement_refCount_of_present t p hr hd hN hp,
      by simp [AttrRef.del, AttrProxy.del]⟩

theorem proxy_refcount_lifecycle_witness :
    refCount (AttrProxy.init
      { Transport.init with temporary_references := [("x", 1)] }
      "x" true (.ok ())).1 "x" = 2 ∧
    (AttrProxy.init { Transport.init with temporary_references := [("x", 1)] }
      "x" true (.ok ())).1.reqLog = [] ∧
    AttrProxy.init { Transport.init with temporary_references := [("x", 1)] }
      "x" false (.ok ()) =
      ({ Transport.init with temporary_references := [("x", 1)] },
       .ok ⟨"x", false⟩) ∧
    refCount (AttrProxy.del ⟨"x", true⟩
      { Transport.init with temporary_references := [("x", 1)] }
      (.ok ())).1 "x" = 0 := by
  have h := proxy_refcount_lifecycle
    { Transport.init with temporary_references := [("x", 1)] } "x" (.ok ())
    rfl (by decide) (by decide)
  refine ⟨?_, by simpa [Transport.init] using h.2.2.2.1,
    h.2.2.2.2.2.1, ?_⟩
  · have hx := h.2.1
    simpa [refCount, tlookup] using hx
  · have hx := (h.2.2.2.2.2.2.2.1 (by decide)).1
    simpa [refCount, tlookup] using hx

/-- C4: an attribute access through `__getattr__` whose name equals
"count" case-insensitively performs `Transport.get` on `path + "." + name`
— exactly one GET request — and returns the decoded response value (shown
for a 200 response carrying a bare scalar or the empty body); an access
under any other name issues no request, changes no state, and returns a
child `AttrProxy` for `path + "." + name` with `temporary=false`. -/
theorem getattr_count_resolves_others_extend (p : AttrProxy) (t : Transport)
    (name : String) (resp : HttpResponse) (hr : Except PyError Unit)
    (raw : String) (b : Bool) (q : ℚ) (s : String) :
    (strLower name = "count" → resp.status = 200 →
      ((resp.body = .json raw (.jbool b) →
        AttrProxy.getattr p t name resp hr =
          ({ t with reqLog := t.reqLog ++
              [⟨"GET", t.baseUrl ++ (p.path ++ "." ++ name), none⟩] },
           .ok (.val (.vbool b)))) ∧
       (resp.body = .json raw (.jnum q) →
        AttrProxy.getattr p t name resp hr =
          ({ t with reqLog := t.reqLog ++
              [⟨"GET", t.baseUrl ++ (p.path ++ "." ++ name), none⟩] },
           .ok (.val (.vnum q)))) ∧
       (resp.body = .json raw (.jstr s) →
        AttrProxy.getattr p t name resp hr =
          ({ t with reqLog := t.reqLog ++
              [⟨"GET", t.baseUrl ++ (p.path ++ "." ++ name), none⟩] },
           .ok (.val (.vstr s)))) ∧
       (resp.body = .empty →
        AttrProxy.getattr p t name resp hr =
          ({ t with reqLog := t.reqLog ++
              [⟨"GET", t.baseUrl ++ (p.path ++ "." ++ name), none⟩] },
           .ok (.val (.vstr "")))))) ∧
    (strLower name ≠ "count" →
      AttrProxy.getattr p t name resp hr =
        (t, .ok (.proxy ⟨p.path ++ "." ++ name, false⟩))) := by
  obtain ⟨status, reason, body⟩ := resp
  constructor
  · intro hc h200
    simp only at h200
    subst h200
    refine ⟨?_, ?_, ?_, ?_⟩ <;> intro hb <;> simp only at hb <;> subst hb <;>
      simp [AttrProxy.getattr, hc, Transport.get, http_get,
        decode_http_response, decode, value_from_transport_response]
  · intro hc
    simp [AttrProxy.getattr, hc]

theorem getattr_count_resolves_others_extend_witness :
    AttrProxy.getattr ⟨"ODTK.children", false⟩ Transport.init "Count"
        ⟨200, "OK", .json "5" (.jnum 5)⟩ (.ok ()) =
      ({ Transport.init with reqLog := Transport.init.reqLog ++
          [⟨"GET", Transport.init.baseUrl ++
            ("ODTK.children" ++ "." ++ "Count"), none⟩] },
       .ok (.val (.vnum 5))) ∧
    AttrProxy.getattr ⟨"ODTK", false⟩ Transport.init "children"
        ⟨200, "OK", .empty⟩ (.ok ()) =
      (Transport.init, .ok (.proxy ⟨"ODTK" ++ "." ++ "children", false⟩)) := by
  have h1 := getattr_count_resolves_others_extend ⟨"ODTK.children", false⟩
    Transport.init "Count" ⟨200, "OK", .json "5" (.jnum 5)⟩ (.ok ())
    "5" true 5 ""
  have h2 := getattr_count_resolves_others_extend ⟨"ODTK", false⟩
    Transport.init "children" ⟨200, "OK", .empty⟩ (.ok ()) "" true 0 ""
  exact ⟨((h1.1 (by decide) rfl).2.1) rfl, h2.2 (by decide)⟩

/-- C5: closing a non-disposed transport with a nonempty reference table
posts exactly one batched release request naming every tracked path in
table order, empties the table, closes the connection once, sets the
disposed flag and raises nothing; closing again — with any HTTP oracle —
returns the state unchanged, performs no further release or connection
close, and raises nothing. -/
theorem close_idempotent (t : Transport) (hd : t.disposed = false)
    (hN : NodupKeys t.temporary_references)
    (hne : t.temporary_references ≠ []) :
    Transport.close t (.ok ()) =
      ({ t with
          temporary_references := [],
          disposed := true,
          reqLog := t.reqLog ++
            [⟨"POST", t.baseUrl ++ "workspace/references/release",
              some (renderRefs (tkeys t.temporary_references))⟩],
          connCloseCount := t.connCloseCount + 1 }, .ok ()) ∧
    (∀ hr, Transport.close (Transport.close t (.ok ())).1 hr =
      ((Transport.close t (.ok ())).1, .ok ())) := by
  have hlen : ¬ (tkeys t.temporary_references).length = 0 := by
    simpa [tkeys] using hne
  have hdel := delLoop_keys t.temporary_references hN
  have h1 : Transport.close t (.ok ()) =
      ({ t with
          temporary_references := [],
          disposed := true,
          reqLog := t.reqLog ++
            [⟨"POST", t.baseUrl ++ "workspace/references/release",
              some (renderRefs (tkeys t.temporary_references))⟩],
          connCloseCount := t.connCloseCount + 1 }, .ok ()) := by
    simp [Transport.close, hd, release_refs, hlen, hdel, http_post_unit]
  refine ⟨h1, fun hr => ?_⟩
  rw [h1]
  simp [Transport.close]

theorem close_idempotent_witness :
    (Transport.close
      { Transport.init with temporary_references := [("x", 1), ("y", 2)] }
      (.ok ())).1.disposed = true ∧
    (Transport.close
      { Transport.init with temporary_references := [("x", 1), ("y", 2)] }
      (.ok ())).1.temporary_references = [] ∧
    (Transport.close
      { Transport.init with temporary_references := [("x", 1), ("y", 2)] }
      (.ok ())).1.reqLog =
      [⟨"POST", defaultBaseUrl ++ "workspace/references/release",
        some (renderRefs ["x", "y"])⟩] ∧
    (Transport.close
      { Transport.init with temporary_references := [("x", 1), ("y", 2)] }
      (.ok ())).1.connCloseCount = 1 ∧
    Transport.close (Transport.close
      { Transport.init with temporary_references := [("x", 1), ("y", 2)] }
      (.ok ())).1 (.ok ()) =
      ((Transport.close
        { Transport.init with temporary_references := [("x", 1), ("y", 2)] }
        (.ok ())).1, .ok ()) := by
  have h := close_idempotent
    { Transport.init with temporary_references := [("x", 1), ("y", 2)] }
    rfl (by decide) (by decide)
  refine ⟨by rw [h.1], by rw [h.1], ?_, by rw [h.1]; rfl, h.2 (.ok ())⟩
  rw [h.1]
  simp [Transport.init, tkeys, defaultBaseUrl]

/-- C7 counterexample: the body `null` is valid JSON of "any other shape",
yet decoding it raises `TypeError` (Python subscripts `None` with
`spec['type']`), not a SerializationError `ClientException` as claimed. -/
theorem decode_null_not_serialization_error :
    (decode Transport.init (.json "null" .jnull) (.ok ())).2 =
      .error .typeError ∧
    isSerializationError
      (decode Transport.init (.json "null" .jnull) (.ok ())).2 = false :=
  ⟨rfl, rfl⟩

/-- C7 (amended): decoding maps the empty body to the empty string and a
bare scalar to itself; an object whose `type` is `"ref"` with a string
`path` yields a temporary reference carrying that path (incrementing its
count); an object whose `type` is `"error"` raises a `ClientException`
carrying the server-supplied code and message; an object whose `type` is
neither `"ref"` nor `"error"` raises the SerializationError
`ClientException`; but a null or array body raises `TypeError` and an
object without a `type` key raises `KeyError`, not a SerializationError. -/
theorem decode_cases (t : Transport) (hr : Except PyError Unit)
    (raw : String) (b : Bool) (q : ℚ) (s : String) (es : List Json)
    (fields : List (String × Json)) (p : String) (c m dt : Json)
    (hd : t.disposed = false) (hN : NodupKeys t.temporary_references)
    (hnn : 0 ≤ refCount t p) :
    decode t .empty hr = (t, .ok (.vstr "")) ∧
    decode t (.json raw (.jbool b)) hr = (t, .ok (.vbool b)) ∧
    decode t (.json raw (.jnum q)) hr = (t, .ok (.vnum q)) ∧
    decode t (.json raw (.jstr s)) hr = (t, .ok (.vstr s)) ∧
    (jget fields "type" = some (.jstr "ref") →
      jget fields "path" = some (.jstr p) →
      decode t (.json raw (.jobj fields)) hr =
        ({ t with
            temporary_references := tset t.temporary_references p (refCount t p + 1) },
         .ok (.vref ⟨p, true, true⟩))) ∧
    (jget fields "type" = some (.jstr "error") →
      jget fields "code" = some c → jget fields "message" = some m →
      decode t (.json raw (.jobj fields)) hr =
        (t, .error (.clientException m c))) ∧
    (jget fields "type" = some dt → isStr dt "ref" = false →
      isStr dt "error" = false →
      decode t (.json raw (.jobj fields)) hr =
        (t, .error (.clientException
          (.jstr ("Unable to deserialize response '" ++ raw ++ "'."))
          (.jstr "SerializationError")))) ∧
    decode t (.json raw .jnull) hr = (t, .error .typeError) ∧
    decode t (.json raw (.jarr es)) hr = (t, .error .typeError) ∧
    (jget fields "type" = none →
      decode t (.json raw (.jobj fields)) hr = (t, .error (.keyError "type"))) := by
  have hinc := increment_ref_count_of_nonneg t p hr hd hnn
  refine ⟨rfl, rfl, rfl, rfl, ?_, ?_, ?_, rfl, rfl, ?_⟩
  · intro htype hpath
    simp [decode, htype, hpath, isStr, AttrRef.init, hinc]
  · intro htype hcode hmsg
    simp [decode, htype, hcode, hmsg, isStr]
  · intro htype hne1 hne2
    simp [decode, htype, hne1, hne2]
  · intro htype
    simp [decode, htype]

theorem decode_cases_witness :
    decode Transport.init .empty (.ok ()) =
      (Transport.init, .ok (.vstr "")) ∧
    decode Transport.init (.json "3" (.jnum 3)) (.ok ()) =
      (Transport.init, .ok (.vnum 3)) ∧
    decode Transport.init
        (.json "r" (.jobj [("type", .jstr "ref"), ("path", .jstr "WS._1")]))
        (.ok ()) =
      ({ Transport.init with
          temporary_references := tset [] "WS._1" (refCount Transport.init "WS._1" + 1) },
       .ok (.vref ⟨"WS._1", true, true⟩)) ∧
    decode Transport.init
        (.json "e" (.jobj [("type", .jstr "error"), ("code", .jstr "BadRequest"),
          ("message", .jstr "boom")]))
        (.ok ()) =
      (Transport.init,
       .error (.clientException (.jstr "boom") (.jstr "BadRequest"))) ∧
    decode Transport.init (.json "u" (.jobj [("type", .jstr "mystery")]))
        (.ok ()) =
      (Transport.init, .error (.clientException
        (.jstr ("Unable to deserialize response '" ++ "u" ++ "'."))
        (.jstr "SerializationError"))) ∧
    decode Transport.init (.json "[]" (.jarr [])) (.ok ()) =
      (Transport.init, .error .typeError) ∧
    decode Transport.init (.json "o" (.jobj [("a", .jnum 1)])) (.ok ()) =
      (Transport.init, .error (.keyError "type")) := by
  have h1 := decode_cases Transport.init (.ok ()) "r" true 3 "" []
    [("type", .jstr "ref"), ("path", .jstr "WS._1")] "WS._1"
    (.jstr "BadRequest") (.jstr "boom") (.jstr "mystery") rfl (by decide)
    (by decide)
  have h2 := decode_cases Transport.init (.ok ()) "e" true 3 "" []
    [("type", .jstr "error"), ("code", .jstr "BadRequest"),
      ("message", .jstr "boom")] "WS._1"
    (.jstr "BadRequest") (.jstr "boom") (.jstr "mystery") rfl (by decide)
    (by decide)
  have h3 := decode_cases Transport.init (.ok ()) "u" true 3 "" []
    [("type", .jstr "mystery")] "WS._1"
    (.jstr "BadRequest") (.jstr "boom") (.jstr "mystery") rfl (by decide)
    (by decide)
  have h4 := decode_cases Transport.init (.ok ()) "[]" true 3 "" []
    [("a", .jnum 1)] "WS._1"
    (.jstr "BadRequest") (.jstr "boom") (.jstr "mystery") rfl (by decide)
    (by decide)
  have h5 := decode_cases Transport.init (.ok ()) "3" true 3 "" []
    [("a", .jnum 1)] "WS._1"
    (.jstr "BadRequest") (.jstr "boom") (.jstr "mystery") rfl (by decide)
    (by decide)
  exact ⟨h1.1, h5.2.2.1, h1.2.2.2.2.1 rfl rfl,
    h2.2.2.2.2.2.1 rfl rfl rfl, h3.2.2.2.2.2.2.1 rfl rfl rfl,
    h4.2.2.2.2.2.2.2.2.1, h4.2.2.2.2.2.2.2.2.2 rfl⟩

/-- C10: on a non-disposed transport, releasing a non-empty
duplicate-free list of paths all present in the table removes every one
of them from the client-side table (leaving the other entries untouched)
and then posts the single batched release request; the resulting transport
state is identical whether that request succeeds or raises, so the removal
is not rolled back on an HTTP failure. -/
theorem release_refs_removes_before_post (t : Transport)
    (paths : List String) (hr : Except PyError Unit)
    (hd : t.disposed = false) (hN : NodupKeys t.temporary_references)
    (hne : paths ≠ []) (hnd : paths.Nodup)
    (hp : ∀ p ∈ paths, (tlookup t.temporary_references p).isSome) :
    (∀ p ∈ paths,
      tlookup (release_refs t paths hr).1.temporary_references p = none) ∧
    (∀ q, q ∉ paths →
      tlookup (release_refs t paths hr).1.temporary_references q =
        tlookup t.temporary_references q) ∧
    (release_refs t paths hr).1.reqLog = t.reqLog ++
      [⟨"POST", t.baseUrl ++ "workspace/references/release",
        some (renderRefs paths)⟩] ∧
    (release_refs t paths hr).2 = hr ∧
    (release_refs t paths hr).1 = (release_refs t paths (.ok ())).1 := by
  obtain ⟨tbl', h1, _, h3, h4⟩ :=
    delLoop_spec paths t.temporary_references hN hnd hp
  have hlen : ¬ paths.length = 0 := by simpa using hne
  have hres : ∀ hr' : Except PyError Unit, release_refs t paths hr' =
      ({ t with
          temporary_references := tbl',
          reqLog := t.reqLog ++
            [⟨"POST", t.baseUrl ++ "workspace/references/release",
              some (renderRefs paths)⟩] }, hr') := by
    intro hr'
    simp [release_refs, hd, hlen, h1, http_post_unit]
  refine ⟨?_, ?_, by simp [hres hr], by simp [hres hr],
    by simp [hres hr, hres (.ok ())]⟩
  · intro p hp'
    simpa [hres hr] using h3 p hp'
  · intro q hq
    simpa [hres hr] using h4 q hq

theorem release_refs_removes_before_post_witness :
    (tlookup (release_refs
      { Transport.init with temporary_references := [("x", 1), ("y", 2), ("z", 3)] }
      ["x", "z"] (.error .otherError)).1.temporary_references "x" = none) ∧
    (tlookup (release_refs
      { Transport.init with temporary_references := [("x", 1), ("y", 2), ("z", 3)] }
      ["x", "z"] (.error .otherError)).1.temporary_references "z" = none) ∧
    (tlookup (release_refs
      { Transport.init with temporary_references := [("x", 1), ("y", 2), ("z", 3)] }
      ["x", "z"] (.error .otherError)).1.temporary_references "y" = some 2) ∧
    (release_refs
      { Transport.init with temporary_references := [("x", 1), ("y", 2), ("z", 3)] }
      ["x", "z"] (.error .otherError)).1.reqLog =
      [⟨"POST", defaultBaseUrl ++ "workspace/references/release",
        some (renderRefs ["x", "z"])⟩] ∧
    (release_refs
      { Transport.init with temporary_references := [("x", 1), ("y", 2), ("z", 3)] }
      ["x", "z"] (.error .otherError)).2 = .error .otherError := by
  have h := release_refs_removes_before_post
    { Transport.init with temporary_references := [("x", 1), ("y", 2), ("z", 3)] }
    ["x", "z"] (.error .otherError) rfl (by decide) (by decide) (by decide)
    (by decide)
  refine ⟨h.1 "x" (by decide), h.1 "z" (by decide), ?_, ?_, h.2.2.2.1⟩
  · have hx := h.2.1 "y" (by decide)
    simpa [tlookup] using hx
  · simpa [Transport.init] using h.2.2.1

end Odtk
